import Mathlib

/-!
# Verification of the MediaPipe pose-tracking JS bundle facade

A shallow embedding of the `Solution` / `PoseSolution` facade from
`pose_tracking_bin-bundle.js` (the `solutions_api` and `pose_tracking`
closure modules) and of the `goog.module` entry point of the bundled
Closure loader.

The facade is single-threaded, callback-driven sequencing code.  We model
it as explicit state passing: each method is a function from a
`SolutionState` to a new state together with the list of observable
external calls it performs (script loading, calls into the opaque WASM
engine, `alert`, `console` output).  Asynchronous steps in the source are
linear promise chains with no interleaving modelled here; each modelled
call runs to completion, matching sequential (awaited) use.  JS numbers
that are only carried through opaquely (option values, video dimensions,
timestamps) are modelled as `Int`; no arithmetic is performed on them in
the source.  Methods whose source bodies contain no `throw` and return a
resolved promise are modelled as total functions; where a runtime
`TypeError` is reachable in the source (reading a property of an
undefined `this.gl`), the model returns an explicit error component.
-/

/-- Cross reference into the graph, telling the WASM engine which
calculator option field a change request targets
(`GraphOptionXRef` of `solutions_wasm`). -/
structure GraphOptionXRef where
  calculatorType : String
  calculatorIndex : Nat
  fieldName : String
deriving DecidableEq, Repr

/-- A queued option change, as fed to `SolutionWasm.changeOptions`:
the xref fields merged (via `Object.assign`) with a `valueNumber`.
`valueNumber` is `none` when the option type is not `NUMBER`
(the source stores `undefined` there). -/
structure GraphOptionChangeRequest where
  calculatorType : String
  calculatorIndex : Nat
  fieldName : String
  valueNumber : Option Int
deriving DecidableEq, Repr

/-- `OptionType` enum of `solutions_api` (only `NUMBER = 0` exists). -/
inductive OptionType where
  | NUMBER
deriving DecidableEq, Repr

/-- `OptionConfig` record: an option type together with an optional
graph cross reference. -/
structure OptionConfig where
  type : OptionType
  graphOptionXref : Option GraphOptionXRef
deriving DecidableEq, Repr

/-- `SolutionConfig`: the per-solution static configuration.  The
`options` map (`OptionConfigMap`) is a JS object, modelled as an
association list keyed by option name.  `onRegisterListeners` is an
opaque callback; for the event trace only its presence matters. -/
structure SolutionConfig where
  files : List String
  graphUrl : String
  options : Option (List (String × OptionConfig))
  hasOnRegisterListeners : Bool
deriving DecidableEq, Repr

/-- Width/height/timestamp metadata handed to
`SolutionWasm.processFrame` (`FrameMetadataWasm`). -/
structure FrameMetadata where
  width : Int
  height : Int
  timestampMs : Int
deriving DecidableEq, Repr

/-- The observable fields of an `HTMLVideoElement` that the facade
reads. -/
structure Video where
  videoWidth : Int
  videoHeight : Int
deriving DecidableEq, Repr

/-- Observable external calls made by the facade: DOM script loading,
calls into the opaque WASM engine, and user-visible reporting.  The
`consoleLog` constructor exists so that statements about the absence of
console output are expressible; the `Solution` methods modelled here
never emit it (the WebGL failure path calls `alert`). -/
inductive Event where
  | loadScript (url : String)
  | wasmLoad
  | createContext
  | newSolutionWasm
  | loadGraph (url : String)
  | bindTextureToCanvas
  | changeOptions (requests : List GraphOptionChangeRequest)
  | registerListeners
  | alertCalled (msg : String)
  | consoleLog (msg : String)
  | texImage2D
  | processFrameCall (stream : String) (meta : FrameMetadata)
  | deleteSolution
deriving DecidableEq, Repr

/-- The mutable fields of a `Solution` instance.  The opaque handles
(`this.wasm`, `this.solutionWasm`, `this.gl`) are tracked by presence
only, since the facade never inspects them beyond calling through. -/
structure SolutionState where
  needToInitializeWasm : Bool
  needToInitializeGraph : Bool
  pendingChanges : Option (List GraphOptionChangeRequest)
  wasmLoaded : Bool
  solutionWasm : Bool
  glContext : Bool
deriving DecidableEq, Repr

/-- State of a freshly constructed `Solution` (constructor sets both
`needToInitialize...` flags to `true`; the opaque handles are unset). -/
def initSolutionState : SolutionState :=
  { needToInitializeWasm := true
    needToInitializeGraph := true
    pendingChanges := none
    wasmLoaded := false
    solutionWasm := false
    glContext := false }

/-- `Solution.tryToInitializeWasm`: guarded by `needToInitializeWasm`;
loads the configured scripts, builds the WASM module, creates the GL
context, constructs `SolutionWasm`, and loads the graph binary (via
`this.loadGraph`, which calls `SolutionWasm.loadGraph`), then clears the
flag. -/
def tryToInitializeWasm (cfg : SolutionConfig) (s : SolutionState) :
    SolutionState × List Event :=
  if !s.needToInitializeWasm then (s, [])
  else
    ({ s with
        wasmLoaded := true
        solutionWasm := true
        needToInitializeWasm := false },
      cfg.files.map Event.loadScript ++
        [Event.wasmLoad, Event.createContext, Event.newSolutionWasm,
          Event.loadGraph cfg.graphUrl])

/-- `Solution.tryToInitializeGraph`: guarded by `needToInitializeGraph`.
Binds the texture, asks the canvas for a `webgl2` context (success is an
environment parameter `glOk`); on failure it alerts and returns early
(the guard flag stays set).  On success it applies any pending option
changes through `SolutionWasm.changeOptions` and clears them, invokes
`onRegisterListeners` when configured, and clears the guard flag. -/
def tryToInitializeGraph (cfg : SolutionConfig) (glOk : Bool)
    (s : SolutionState) : SolutionState × List Event :=
  if !s.needToInitializeGraph then (s, [])
  else if !glOk then
    (s, [Event.bindTextureToCanvas,
      Event.alertCalled
        ("Failed to create WebGL canvas context when passing video frame.")])
  else
    let s1 := { s with glContext := true }
    let changed :=
      match s1.pendingChanges with
      | some changes =>
        ({ s1 with pendingChanges := none }, [Event.changeOptions changes])
      | none => (s1, [])
    let regEvents :=
      if cfg.hasOnRegisterListeners then [Event.registerListeners] else []
    ({ changed.1 with needToInitializeGraph := false },
      Event.bindTextureToCanvas :: (changed.2 ++ regEvents))

/-- `Solution.initialize`: awaits `tryToInitializeWasm`, then
`tryToInitializeGraph`. -/
def initializeSolution (cfg : SolutionConfig) (glOk : Bool)
    (s : SolutionState) : SolutionState × List Event :=
  ((tryToInitializeGraph cfg glOk (tryToInitializeWasm cfg s).1).1,
    (tryToInitializeWasm cfg s).2 ++
      (tryToInitializeGraph cfg glOk (tryToInitializeWasm cfg s).1).2)

/-- `Solution.setOptions`: returns immediately when the config carries
no option map; otherwise each supplied key is looked up in the option
config, keys carrying a `graphOptionXref` are turned into change
requests (with `valueNumber` set for `NUMBER`-typed options), and a
nonempty request list marks the graph dirty and replaces
`pendingChanges`.  No external call is made. -/
def setOptions (cfg : SolutionConfig) (options : List (String × Int))
    (s : SolutionState) : SolutionState :=
  match cfg.options with
  | none => s
  | some configMap =>
    let pendingChanges := options.filterMap fun kv =>
      match configMap.lookup kv.1 with
      | some optionConfig =>
        match optionConfig.graphOptionXref with
        | some xref =>
          some { calculatorType := xref.calculatorType
                 calculatorIndex := xref.calculatorIndex
                 fieldName := xref.fieldName
                 valueNumber :=
                   if optionConfig.type = OptionType.NUMBER then some kv.2
                   else none }
        | none => none
      | none => none
    if pendingChanges.length ≠ 0 then
      { s with needToInitializeGraph := true
               pendingChanges := some pendingChanges }
    else s

/-- `Solution.processFrame`: awaits `initialize`, then reads `this.gl`,
binds the texture, uploads the frame, and calls
`SolutionWasm.processFrame` with metadata recomputed from the video
element and `performance.now()` (the `now` parameter here); the
`metadata` argument is never read.  When `this.gl` was never set
(WebGL context creation failed), reading `gl.TEXTURE_2D` raises a
`TypeError`, reported in the third component. -/
def processFrameSolution (cfg : SolutionConfig) (glOk : Bool)
    (inputStreamName : String) (metadata : FrameMetadata) (video : Video)
    (now : Int) (s : SolutionState) :
    SolutionState × List Event × Option String :=
  if (initializeSolution cfg glOk s).1.glContext then
    ((initializeSolution cfg glOk s).1,
      (initializeSolution cfg glOk s).2 ++
        [Event.bindTextureToCanvas, Event.texImage2D,
          Event.processFrameCall inputStreamName
            { width := video.videoWidth
              height := video.videoHeight
              timestampMs := now }],
      none)
  else
    ((initializeSolution cfg glOk s).1,
      (initializeSolution cfg glOk s).2 ++ [Event.bindTextureToCanvas],
      some ("TypeError"))

/-- `Solution.close`: deletes the WASM solution object only when it was
created, and returns a resolved promise (modelled by the `none` error
component of the uniform result shape). -/
def closeSolution (s : SolutionState) :
    SolutionState × List Event × Option String :=
  (s, if s.solutionWasm then [Event.deleteSolution] else [], none)

/-- The `SolutionConfig` built by the `PoseSolution` constructor. -/
def poseConfig : SolutionConfig :=
  { files := ["pose_tracking_solution_packed_assets_loader.js",
              "pose_tracking_solution_wasm_bin.js"]
    graphUrl := "pose_web.binarypb"
    options := some [("poseThreshold",
      { type := OptionType.NUMBER
        graphOptionXref := some
          { calculatorType := "ThresholdingCalculator"
            calculatorIndex := 1
            fieldName := "threshold" } })]
    hasOnRegisterListeners := true }

/-- `PoseSolution.send`: does nothing when `inputs.video` is absent or
falsy (an `HTMLVideoElement` reference is falsy exactly when it is
`null`/`undefined`, modelled by `none`); otherwise forwards to
`Solution.processFrame` on the `input_frames_gpu` stream with a
metadata object recomputed from the video. -/
def sendPose (glOk : Bool) (video : Option Video) (now : Int)
    (s : SolutionState) : SolutionState × List Event × Option String :=
  match video with
  | none => (s, [], none)
  | some v =>
    processFrameSolution poseConfig glOk ("input_frames_gpu")
      { width := v.videoWidth, height := v.videoHeight, timestampMs := now }
      v now s

/-- `PoseSolution.close`: calls `Solution.close` (without awaiting it)
and returns a resolved promise. -/
def closePose (s : SolutionState) :
    SolutionState × List Event × Option String :=
  ((closeSolution s).1, (closeSolution s).2.1, none)

/-- External API operations on a `Solution` whose sequencing the spec
talks about: explicit `initialize` calls, `setOptions` calls, and
`processFrame` calls (each of which performs an implicit
`initialize`). -/
inductive ApiOp where
  | initializeOp
  | setOptionsOp (options : List (String × Int))
  | processFrameOp (stream : String) (metadata : FrameMetadata)
      (video : Video) (now : Int)
deriving DecidableEq, Repr

/-- One API operation, as state transition plus emitted events. -/
def applyOp (cfg : SolutionConfig) (glOk : Bool) (s : SolutionState) :
    ApiOp → SolutionState × List Event
  | ApiOp.initializeOp => initializeSolution cfg glOk s
  | ApiOp.setOptionsOp options => (setOptions cfg options s, [])
  | ApiOp.processFrameOp stream metadata video now =>
    let r := processFrameSolution cfg glOk stream metadata video now s
    (r.1, r.2.1)

/-- Run a sequence of API operations, each awaited to completion,
collecting the full event trace. -/
def runApi (cfg : SolutionConfig) (glOk : Bool) :
    List ApiOp → SolutionState → SolutionState × List Event
  | [], s => (s, [])
  | op :: rest, s =>
    let r1 := applyOp cfg glOk s op
    let r2 := runApi cfg glOk rest r1.1
    (r2.1, r1.2 ++ r2.2)

/-- Recogniser for the WASM-module load (`apiFn(packFn)`). -/
def isWasmLoadEvent : Event → Bool
  | Event.wasmLoad => true
  | _ => false

/-- Recogniser for `SolutionWasm.loadGraph` calls. -/
def isGraphLoadEvent : Event → Bool
  | Event.loadGraph _ => true
  | _ => false

/-- Recogniser for `SolutionWasm.changeOptions` calls. -/
def isChangeOptionsEvent : Event → Bool
  | Event.changeOptions _ => true
  | _ => false

/-- Recogniser for `alert` calls. -/
def isAlertEvent : Event → Bool
  | Event.alertCalled _ => true
  | _ => false

/-- Recogniser for console output. -/
def isConsoleLogEvent : Event → Bool
  | Event.consoleLog _ => true
  | _ => false

/-- Recogniser for `delete()` on the WASM solution object. -/
def isDeleteEvent : Event → Bool
  | Event.deleteSolution => true
  | _ => false

/-- Number of WASM-module loads in a trace. -/
def countWasmLoads (tr : List Event) : Nat := tr.countP isWasmLoadEvent

/-- Number of graph-binary loads in a trace. -/
def countGraphLoads (tr : List Event) : Nat := tr.countP isGraphLoadEvent

/-- The pending WASM initialisation work in a state: 1 while
`needToInitializeWasm` is set, 0 afterwards. -/
def wasmPotential (s : SolutionState) : Nat :=
  if s.needToInitializeWasm then 1 else 0

/-! ## Result extraction and listener dispatch (`attachListener`) -/

/-- Opaque landmark record produced by the engine (fields as declared
for `NormalizedLandmark`). -/
structure NormalizedLandmark where
  x : Int
  y : Int
  visibility : Int
deriving DecidableEq, Repr

/-- Opaque rectangle handle crossing the WASM boundary; the facade
never inspects it, so a bare token suffices. -/
structure NormalizedRect where
  rectId : Nat
deriving DecidableEq, Repr

/-- A `ResultWasm` as seen through its probes `isNumber` / `isRect` /
`isLandmarks`; `empty` answers false to all three. -/
inductive ResultWasm where
  | number (n : Int)
  | rect (r : NormalizedRect)
  | landmarks (l : List NormalizedLandmark)
  | empty
deriving DecidableEq, Repr

/-- A value extracted from a `ResultWasm`. -/
inductive ExtractedValue where
  | number (n : Int)
  | rect (r : NormalizedRect)
  | landmarks (l : List NormalizedLandmark)
deriving DecidableEq, Repr

/-- `extractWasmResult`: probes the result in order
number / rect / landmarks and returns the first matching payload,
`none` (JS `undefined`) otherwise. -/
def extractWasmResult : ResultWasm → Option ExtractedValue
  | ResultWasm.number n => some (ExtractedValue.number n)
  | ResultWasm.rect r => some (ExtractedValue.rect r)
  | ResultWasm.landmarks l => some (ExtractedValue.landmarks l)
  | ResultWasm.empty => none

/-- The `ResultMap` object built by the `onResults` closure registered
by `attachListener`: for each index below `wants.length`, the wanted
stream name is bound to the extracted value of the result vector at
that index.  (The source indexes the copied `wantsCopy` and `values`
directly; the defaults here are only reachable past the vector
lengths.) -/
def listenerResultMap (wants : List String) (values : List ResultWasm) :
    List (String × Option ExtractedValue) :=
  (List.range wants.length).map fun index =>
    (wants.getD index (""), extractWasmResult (values.getD index ResultWasm.empty))

/-- The listener invocations performed when the engine delivers a
result vector: the `onResults` closure body calls `listener` exactly
once, on the assembled result map. -/
def listenerInvocations (wants : List String) (values : List ResultWasm) :
    List (List (String × Option ExtractedValue)) :=
  [listenerResultMap wants values]

/-! ## The Closure loader entry point `goog.module` -/

/-- A JS value as discriminated by `goog.module`: only strings are
inspected further, everything else fails the `typeof` test. -/
inductive JSVal where
  | str (s : String)
  | num (n : Int)
  | boolean (b : Bool)
  | nullVal
  | undef
  | obj
deriving DecidableEq, Repr

/-- `goog.ModuleType` (the loader discriminates GOOG from ES6). -/
inductive ModuleType where
  | goog
  | es6
deriving DecidableEq, Repr

/-- `goog.moduleLoaderState_` contents: the module type being loaded
and the claimed module name (`""` while unset, matching the JS
truthiness test on `moduleName`). -/
structure ModuleLoaderState where
  type : ModuleType
  moduleName : String
deriving DecidableEq, Repr

/-- The loader state touched by `goog.module`: the current module
loader state (JS `null` as `none`), the provided-namespace test
(`goog.isProvided_`, abstracted as a predicate since it consults the
global object graph), and `goog.implicitNamespaces_`. -/
structure GoogState where
  moduleLoaderState : Option ModuleLoaderState
  isProvided : String → Bool
  implicitNamespaces : List String

/-- The module-identifier check of `goog.VALID_MODULE_RE_`
(`/^[a-zA-Z_$][a-zA-Z0-9._$]*$/`): first character test. -/
def isModuleIdStartChar (c : Char) : Bool :=
  (('a' ≤ c && c ≤ 'z') || ('A' ≤ c && c ≤ 'Z') || c = '_' || c = '$')

/-- Subsequent-character test of `goog.VALID_MODULE_RE_`. -/
def isModuleIdChar (c : Char) : Bool :=
  isModuleIdStartChar c || ('0' ≤ c && c ≤ '9') || c = '.'

/-- Whole-string match against `goog.VALID_MODULE_RE_` (the anchored
regex matches exactly the nonempty strings with a valid start character
followed by valid identifier characters). -/
def validModuleId (s : String) : Bool :=
  match s.data with
  | [] => false
  | c :: rest => isModuleIdStartChar c && rest.all isModuleIdChar

/-- The test guarding the first `throw` of `goog.module`: the argument
is a string, nonempty (JS truthiness), and matches the identifier
regex. -/
def validModuleArg : JSVal → Bool
  | JSVal.str s => !(s = "") && validModuleId s
  | _ => false

/-- `goog.module(name)` on this uncompiled bundle (`COMPILED` is
`false`): state transition plus the thrown error, if any (throwing
leaves the state as it stood at the throw).  Error messages other than
the first are abbreviated; only their presence matters here. -/
def googModule (name : JSVal) (st : GoogState) : GoogState × Option String :=
  if !validModuleArg name then (st, some ("Invalid module identifier"))
  else
    match name with
    | JSVal.str s =>
      match st.moduleLoaderState with
      | none => (st, some ("Module has been loaded incorrectly."))
      | some mls =>
        if mls.type ≠ ModuleType.goog then
          (st, some ("Module has been loaded incorrectly."))
        else if mls.moduleName ≠ "" then
          (st, some ("goog.module may only be called once per module."))
        else
          let st1 := { st with
            moduleLoaderState := some { mls with moduleName := s } }
          if st1.isProvided s then
            (st1, some ("Namespace already declared."))
          else
            ({ st1 with
                implicitNamespaces := st1.implicitNamespaces.erase s }, none)
    | _ => (st, some ("Invalid module identifier"))

/-- The single change request produced for `poseThreshold` by the pose
option config. -/
def poseThresholdRequest (v : Int) : GraphOptionChangeRequest :=
  { calculatorType := "ThresholdingCalculator"
    calculatorIndex := 1
    fieldName := "threshold"
    valueNumber := some v }

/-- The events of the WASM-initialisation phase for the pose
configuration. -/
def poseWasmEvents : List Event :=
  poseConfig.files.map Event.loadScript ++
    [Event.wasmLoad, Event.createContext, Event.newSolutionWasm,
      Event.loadGraph poseConfig.graphUrl]

/-- A state whose WASM phase has completed but whose graph phase has
not run yet (used as a concrete instantiation point). -/
def wasmReadyState : SolutionState :=
  { initSolutionState with needToInitializeWasm := false }

/-- The graph cross reference an option key resolves to through a
configuration (none when the config has no option map, the key is
absent, or its entry carries no xref). -/
def optionXrefFor (cfg : SolutionConfig) (key : String) :
    Option GraphOptionXRef :=
  match cfg.options with
  | none => none
  | some configMap =>
    match configMap.lookup key with
    | some optionConfig => optionConfig.graphOptionXref
    | none => none

/-- A loader state outside any module load, with no namespaces
provided (`goog.implicitNamespaces_` starts as `{goog.module: true}`). -/
def googInitState : GoogState :=
  { moduleLoaderState := none
    isProvided := fun _ => false
    implicitNamespaces := ["goog.module"] }

/-! ## Counting lemmas: WASM and graph loads across API sequences -/

lemma countP_map_loadScript (p : Event → Bool) (files : List String)
    (h : ∀ u, p (Event.loadScript u) = false) :
    (files.map Event.loadScript).countP p = 0 := by
  rw [List.countP_map]
  induction files with
  | nil => rfl
  | cons f rest ih => simp [List.countP_cons, Function.comp, h, ih]

lemma tryToInitializeWasm_needToInitializeGraph (cfg : SolutionConfig)
    (s : SolutionState) :
    (tryToInitializeWasm cfg s).1.needToInitializeGraph =
      s.needToInitializeGraph := by
  unfold tryToInitializeWasm
  cases s.needToInitializeWasm <;> simp

lemma tryToInitializeWasm_counts (cfg : SolutionConfig) (s : SolutionState) :
    countWasmLoads (tryToInitializeWasm cfg s).2 +
        wasmPotential (tryToInitializeWasm cfg s).1 = wasmPotential s ∧
    countGraphLoads (tryToInitializeWasm cfg s).2 +
        wasmPotential (tryToInitializeWasm cfg s).1 = wasmPotential s := by
  unfold tryToInitializeWasm wasmPotential countWasmLoads countGraphLoads
  cases h : s.needToInitializeWasm <;>
    simp [h, List.countP_append, List.countP_cons,
      countP_map_loadScript isWasmLoadEvent cfg.files (fun _ => rfl),
      countP_map_loadScript isGraphLoadEvent cfg.files (fun _ => rfl),
      isWasmLoadEvent, isGraphLoadEvent]

lemma tryToInitializeGraph_counts (cfg : SolutionConfig) (glOk : Bool)
    (s : SolutionState) :
    countWasmLoads (tryToInitializeGraph cfg glOk s).2 = 0 ∧
    countGraphLoads (tryToInitializeGraph cfg glOk s).2 = 0 ∧
    (tryToInitializeGraph cfg glOk s).1.needToInitializeWasm =
      s.needToInitializeWasm := by
  unfold tryToInitializeGraph countWasmLoads countGraphLoads
  cases s.needToInitializeGraph <;> cases glOk <;>
    cases s.pendingChanges <;> cases cfg.hasOnRegisterListeners <;>
    simp [List.countP_append, List.countP_cons,
      isWasmLoadEvent, isGraphLoadEvent]

lemma initializeSolution_counts (cfg : SolutionConfig) (glOk : Bool)
    (s : SolutionState) :
    countWasmLoads (initializeSolution cfg glOk s).2 +
        wasmPotential (initializeSolution cfg glOk s).1 = wasmPotential s ∧
    countGraphLoads (initializeSolution cfg glOk s).2 +
        wasmPotential (initializeSolution cfg glOk s).1 = wasmPotential s := by
  obtain ⟨hw1, hw2⟩ := tryToInitializeWasm_counts cfg s
  obtain ⟨hg1, hg2, hgflag⟩ :=
    tryToInitializeGraph_counts cfg glOk (tryToInitializeWasm cfg s).1
  unfold initializeSolution
  constructor <;>
    simp only [countWasmLoads, countGraphLoads, List.countP_append] <;>
    simp only [countWasmLoads, countGraphLoads] at hw1 hw2 hg1 hg2 <;>
    simp only [hg1, hg2, Nat.add_zero] <;>
    rw [show wasmPotential (tryToInitializeGraph cfg glOk
        (tryToInitializeWasm cfg s).1).1 =
        wasmPotential (tryToInitializeWasm cfg s).1 by
      unfold wasmPotential; rw [hgflag]] <;>
    assumption

lemma applyOp_counts (cfg : SolutionConfig) (glOk : Bool)
    (s : SolutionState) (op : ApiOp) :
    countWasmLoads (applyOp cfg glOk s op).2 +
        wasmPotential (applyOp cfg glOk s op).1 = wasmPotential s ∧
    countGraphLoads (applyOp cfg glOk s op).2 +
        wasmPotential (applyOp cfg glOk s op).1 = wasmPotential s := by
  cases op with
  | initializeOp => exact initializeSolution_counts cfg glOk s
  | setOptionsOp options =>
    have hflag : (setOptions cfg options s).needToInitializeWasm =
        s.needToInitializeWasm := by
      unfold setOptions
      split
      · rfl
      · dsimp only
        split <;> rfl
    unfold applyOp countWasmLoads countGraphLoads wasmPotential
    rw [hflag]
    simp
  | processFrameOp stream metadata video now =>
    obtain ⟨h1, h2⟩ := initializeSolution_counts cfg glOk s
    unfold applyOp processFrameSolution
    simp only [countWasmLoads, countGraphLoads] at h1 h2 ⊢
    by_cases hgl : (initializeSolution cfg glOk s).1.glContext <;>
      simp [hgl, List.countP_append, List.countP_cons,
        isWasmLoadEvent, isGraphLoadEvent, h1, h2]

lemma runApi_counts (cfg : SolutionConfig) (glOk : Bool) (ops : List ApiOp)
    (s : SolutionState) :
    countWasmLoads (runApi cfg glOk ops s).2 +
        wasmPotential (runApi cfg glOk ops s).1 = wasmPotential s ∧
    countGraphLoads (runApi cfg glOk ops s).2 +
        wasmPotential (runApi cfg glOk ops s).1 = wasmPotential s := by
  induction ops generalizing s with
  | nil => unfold runApi; simp [countWasmLoads, countGraphLoads]
  | cons op rest ih =>
    obtain ⟨h1, h2⟩ := applyOp_counts cfg glOk s op
    obtain ⟨ih1, ih2⟩ := ih (applyOp cfg glOk s op).1
    unfold runApi
    constructor <;>
      simp only [countWasmLoads, countGraphLoads, List.countP_append] at * <;>
      omega

/-- C1: across any awaited sequence of `initialize()` and
`processFrame` calls (and any interleaved `setOptions` calls), starting
from a fresh `Solution`, the WASM load (`apiFn(packFn)`) happens at
most once and `SolutionWasm.loadGraph` is called at most once, for
every configuration and whether or not WebGL context creation
succeeds. -/
theorem wasm_and_graph_loads_at_most_once (cfg : SolutionConfig)
    (glOk : Bool) (ops : List ApiOp) :
    countWasmLoads (runApi cfg glOk ops initSolutionState).2 ≤ 1 ∧
    countGraphLoads (runApi cfg glOk ops initSolutionState).2 ≤ 1 := by
  obtain ⟨h1, h2⟩ := runApi_counts cfg glOk ops initSolutionState
  have hpot : wasmPotential initSolutionState = 1 := rfl
  rw [hpot] at h1 h2
  constructor <;> omega


/-! ## The dirty-graph path: `setOptions` followed by `initialize` -/

lemma setOptions_poseThreshold (v : Int) (s : SolutionState) :
    setOptions poseConfig [(("poseThreshold" : String), v)] s =
      { s with needToInitializeGraph := true
               pendingChanges := some [poseThresholdRequest v] } := rfl

lemma tryToInitializeGraph_pose_pending (s : SolutionState)
    (l : List GraphOptionChangeRequest)
    (hg : s.needToInitializeGraph = true) (hp : s.pendingChanges = some l) :
    tryToInitializeGraph poseConfig true s =
      ({ s with glContext := true
                pendingChanges := none
                needToInitializeGraph := false },
        [Event.bindTextureToCanvas, Event.changeOptions l,
          Event.registerListeners]) := by
  unfold tryToInitializeGraph poseConfig
  simp [hg, hp]

lemma initializeSolution_pose_dirty (s : SolutionState)
    (l : List GraphOptionChangeRequest)
    (hg : s.needToInitializeGraph = true) (hp : s.pendingChanges = some l) :
    (initializeSolution poseConfig true s).2 =
      (if s.needToInitializeWasm then poseWasmEvents else []) ++
        [Event.bindTextureToCanvas, Event.changeOptions l,
          Event.registerListeners] ∧
    (initializeSolution poseConfig true s).1.pendingChanges = none := by
  cases h : s.needToInitializeWasm with
  | false =>
    have hw : tryToInitializeWasm poseConfig s = (s, []) := by
      unfold tryToInitializeWasm; rw [h]; rfl
    unfold initializeSolution
    rw [hw]
    dsimp only
    rw [tryToInitializeGraph_pose_pending s l hg hp]
    simp
  | true =>
    have hw : tryToInitializeWasm poseConfig s =
        ({ s with wasmLoaded := true
                  solutionWasm := true
                  needToInitializeWasm := false }, poseWasmEvents) := by
      unfold tryToInitializeWasm poseWasmEvents; rw [h]; rfl
    unfold initializeSolution
    rw [hw]
    dsimp only
    rw [tryToInitializeGraph_pose_pending
      { s with wasmLoaded := true
               solutionWasm := true
               needToInitializeWasm := false } l hg hp]
    simp

lemma initializeSolution_clears_wasm_flag (cfg : SolutionConfig)
    (glOk : Bool) (s : SolutionState) :
    (initializeSolution cfg glOk s).1.needToInitializeWasm = false := by
  unfold initializeSolution
  rw [(tryToInitializeGraph_counts cfg glOk (tryToInitializeWasm cfg s).1).2.2]
  unfold tryToInitializeWasm
  cases h : s.needToInitializeWasm <;> simp [h]

lemma runApi_append (cfg : SolutionConfig) (glOk : Bool)
    (l1 l2 : List ApiOp) (s : SolutionState) :
    runApi cfg glOk (l1 ++ l2) s =
      ((runApi cfg glOk l2 (runApi cfg glOk l1 s).1).1,
        (runApi cfg glOk l1 s).2 ++
          (runApi cfg glOk l2 (runApi cfg glOk l1 s).1).2) := by
  induction l1 generalizing s with
  | nil => simp [runApi]
  | cons op rest ih => simp [runApi, ih]

lemma countP_poseWasmEvents_changeOptions :
    poseWasmEvents.countP isChangeOptionsEvent = 0 := rfl

/-- C2 counterexample: on the pose solution (WebGL available), run
`initialize()`, then `setOptions({poseThreshold: 5})` (which marks the
graph dirty), then `initialize()` again.  The claimed exception —
"the next initialize() loads the graph binary again" — would make two
`SolutionWasm.loadGraph` calls; the code performs exactly one, because
the dirty-graph phase only calls `changeOptions` and never reloads the
graph binary. -/
theorem graph_binary_not_reloaded_after_setOptions :
    ((runApi poseConfig true
        [ApiOp.initializeOp,
          ApiOp.setOptionsOp [(("poseThreshold" : String), (5 : Int))]]
        initSolutionState).1.needToInitializeGraph = true) ∧
    countGraphLoads (runApi poseConfig true
        [ApiOp.initializeOp,
          ApiOp.setOptionsOp [(("poseThreshold" : String), (5 : Int))],
          ApiOp.initializeOp]
        initSolutionState).2 = 1 ∧
    ¬ countGraphLoads (runApi poseConfig true
        [ApiOp.initializeOp,
          ApiOp.setOptionsOp [(("poseThreshold" : String), (5 : Int))],
          ApiOp.initializeOp]
        initSolutionState).2 = 2 := by
  exact ⟨rfl, rfl, by decide⟩

/-- C2 (amended): `initialize()` is an idempotent two-phase setup: the
WASM and pack scripts are loaded exactly once across all calls (guarded
by `needToInitializeWasm`), the graph binary is loaded exactly once,
during that same WASM phase, and when a `setOptions` call marked the
graph dirty, the next `initialize()` re-runs only the graph phase,
passing the pending change requests to `changeOptions`, without
reloading the graph binary. -/
theorem initializeSolution_idempotent_two_phase (cfg : SolutionConfig)
    (glOk : Bool) (ops : List ApiOp) (v : Int) (s : SolutionState)
    (h : s.needToInitializeWasm = false) :
    countWasmLoads (runApi cfg glOk (ops ++ [ApiOp.initializeOp])
        initSolutionState).2 = 1 ∧
    countGraphLoads (runApi cfg glOk (ops ++ [ApiOp.initializeOp])
        initSolutionState).2 = 1 ∧
    ((setOptions poseConfig [(("poseThreshold" : String), v)]
        s).needToInitializeGraph = true) ∧
    (initializeSolution poseConfig true
        (setOptions poseConfig [(("poseThreshold" : String), v)] s)).2 =
      [Event.bindTextureToCanvas,
        Event.changeOptions [poseThresholdRequest v],
        Event.registerListeners] ∧
    countGraphLoads (initializeSolution poseConfig true
        (setOptions poseConfig [(("poseThreshold" : String), v)] s)).2 = 0 := by
  have hfin : (runApi cfg glOk (ops ++ [ApiOp.initializeOp])
      initSolutionState).1.needToInitializeWasm = false := by
    rw [runApi_append]
    simp [runApi, applyOp, initializeSolution_clears_wasm_flag]
  obtain ⟨hc1, hc2⟩ :=
    runApi_counts cfg glOk (ops ++ [ApiOp.initializeOp]) initSolutionState
  have hpoti : wasmPotential initSolutionState = 1 := rfl
  have hpotf : wasmPotential (runApi cfg glOk (ops ++ [ApiOp.initializeOp])
      initSolutionState).1 = 0 := by
    unfold wasmPotential; rw [hfin]; rfl
  rw [hpoti, hpotf] at hc1 hc2
  rw [setOptions_poseThreshold]
  obtain ⟨hev, hpend⟩ := initializeSolution_pose_dirty
    { s with needToInitializeGraph := true
             pendingChanges := some [poseThresholdRequest v] }
    [poseThresholdRequest v] rfl rfl
  have hev2 : (initializeSolution poseConfig true
      { s with needToInitializeGraph := true
               pendingChanges := some [poseThresholdRequest v] }).2 =
      [Event.bindTextureToCanvas,
        Event.changeOptions [poseThresholdRequest v],
        Event.registerListeners] := by
    rw [hev]
    dsimp only
    rw [h]
    rfl
  exact ⟨by omega, by omega, rfl, hev2, by rw [hev2]; rfl⟩

/-- Witness for the C2 amended theorem at a concrete input: the state
`wasmReadyState` (WASM phase done, graph phase pending), the operation
list `[initialize]`, threshold value 5. -/
theorem initializeSolution_idempotent_two_phase_witness :
    (wasmReadyState.needToInitializeWasm = false) ∧
    (countWasmLoads (runApi poseConfig true
        ([ApiOp.initializeOp] ++ [ApiOp.initializeOp])
        initSolutionState).2 = 1 ∧
      countGraphLoads (runApi poseConfig true
        ([ApiOp.initializeOp] ++ [ApiOp.initializeOp])
        initSolutionState).2 = 1 ∧
      ((setOptions poseConfig [(("poseThreshold" : String), (5 : Int))]
          wasmReadyState).needToInitializeGraph = true) ∧
      (initializeSolution poseConfig true
          (setOptions poseConfig [(("poseThreshold" : String), (5 : Int))]
            wasmReadyState)).2 =
        [Event.bindTextureToCanvas,
          Event.changeOptions [poseThresholdRequest 5],
          Event.registerListeners] ∧
      countGraphLoads (initializeSolution poseConfig true
          (setOptions poseConfig [(("poseThreshold" : String), (5 : Int))]
            wasmReadyState)).2 = 0) :=
  ⟨rfl, initializeSolution_idempotent_two_phase poseConfig true
    [ApiOp.initializeOp] 5 wasmReadyState rfl⟩

/-- C3: `setOptions({poseThreshold: v})` on the pose solution queues
exactly one change request, carrying
`calculatorType = "ThresholdingCalculator"`, `calculatorIndex = 1`,
`fieldName = "threshold"` and `valueNumber = v`; the next `initialize()`
(WebGL context available) performs exactly one `changeOptions` call,
whose argument is exactly that one request, and afterwards
`pendingChanges` is cleared. -/
theorem setOptions_poseThreshold_single_request (v : Int)
    (s : SolutionState) :
    ((setOptions poseConfig [(("poseThreshold" : String), v)]
        s).pendingChanges =
      some [{ calculatorType := "ThresholdingCalculator"
              calculatorIndex := 1
              fieldName := "threshold"
              valueNumber := some v }]) ∧
    ((initializeSolution poseConfig true
        (setOptions poseConfig [(("poseThreshold" : String), v)]
          s)).2.countP isChangeOptionsEvent = 1) ∧
    (Event.changeOptions [{ calculatorType := "ThresholdingCalculator"
                            calculatorIndex := 1
                            fieldName := "threshold"
                            valueNumber := some v }] ∈
      (initializeSolution poseConfig true
        (setOptions poseConfig [(("poseThreshold" : String), v)] s)).2) ∧
    ((initializeSolution poseConfig true
        (setOptions poseConfig [(("poseThreshold" : String), v)]
          s)).1.pendingChanges = none) := by
  rw [setOptions_poseThreshold]
  obtain ⟨hev, hpend⟩ := initializeSolution_pose_dirty
    { s with needToInitializeGraph := true
             pendingChanges := some [poseThresholdRequest v] }
    [poseThresholdRequest v] rfl rfl
  rw [hev, hpend]
  refine ⟨rfl, ?_, ?_, rfl⟩ <;>
    dsimp only <;>
    cases h : s.needToInitializeWasm <;>
    simp [poseThresholdRequest, isChangeOptionsEvent, List.countP_append,
      List.countP_cons, countP_poseWasmEvents_changeOptions]

/-! ## WebGL context failure path -/

lemma tryToInitializeWasm_preserves (cfg : SolutionConfig)
    (s : SolutionState) :
    (tryToInitializeWasm cfg s).1.pendingChanges = s.pendingChanges ∧
    (tryToInitializeWasm cfg s).1.glContext = s.glContext := by
  unfold tryToInitializeWasm
  cases h : s.needToInitializeWasm <;> simp [h]

lemma tryToInitializeWasm_no_alert (cfg : SolutionConfig)
    (s : SolutionState) :
    (tryToInitializeWasm cfg s).2.countP isAlertEvent = 0 ∧
    (tryToInitializeWasm cfg s).2.countP isConsoleLogEvent = 0 := by
  unfold tryToInitializeWasm
  cases h : s.needToInitializeWasm <;>
    simp [h, List.countP_append, List.countP_cons,
      countP_map_loadScript isAlertEvent cfg.files (fun _ => rfl),
      countP_map_loadScript isConsoleLogEvent cfg.files (fun _ => rfl),
      isAlertEvent, isConsoleLogEvent]

lemma tryToInitializeGraph_glFail (cfg : SolutionConfig)
    (s : SolutionState) (hg : s.needToInitializeGraph = true) :
    tryToInitializeGraph cfg false s =
      (s, [Event.bindTextureToCanvas,
        Event.alertCalled
          ("Failed to create WebGL canvas context when passing video frame.")]) := by
  unfold tryToInitializeGraph
  simp [hg]

/-- C4 counterexample: with a fresh pose solution and a canvas whose
`getContext` fails, `initialize()` emits no console output at all — the
failure is reported through `alert`, not console logging. -/
theorem webgl_failure_alerts_not_console :
    ((initializeSolution poseConfig false
        initSolutionState).2.countP isConsoleLogEvent = 0) ∧
    ((initializeSolution poseConfig false
        initSolutionState).2.countP isAlertEvent = 1) := by
  exact ⟨rfl, rfl⟩

/-- C4 (amended): if creating the WebGL2 context fails during
`initialize()` while the graph phase is pending, `initialize()` does
not throw: the failure is reported by a single `alert()` call (no
console logging) and the graph-initialization step returns early, so
the dirty flag stays set and the pending changes and GL handle are
untouched. -/
theorem webgl_failure_is_silent_early_return (cfg : SolutionConfig)
    (s : SolutionState) (h : s.needToInitializeGraph = true) :
    ((initializeSolution cfg false s).2.countP isAlertEvent = 1) ∧
    ((initializeSolution cfg false s).2.countP isConsoleLogEvent = 0) ∧
    (initializeSolution cfg false s).1.needToInitializeGraph = true ∧
    (initializeSolution cfg false s).1.pendingChanges = s.pendingChanges ∧
    (initializeSolution cfg false s).1.glContext = s.glContext := by
  have hg : (tryToInitializeWasm cfg s).1.needToInitializeGraph = true := by
    rw [tryToInitializeWasm_needToInitializeGraph]; exact h
  obtain ⟨hp, hgl⟩ := tryToInitializeWasm_preserves cfg s
  obtain ⟨ha, hc⟩ := tryToInitializeWasm_no_alert cfg s
  unfold initializeSolution
  rw [tryToInitializeGraph_glFail cfg _ hg]
  refine ⟨?_, ?_, hg, hp, hgl⟩ <;>
    simp [List.countP_append, List.countP_cons, ha, hc,
      isAlertEvent, isConsoleLogEvent]

/-- Witness for the C4 amended theorem: the fresh pose solution. -/
theorem webgl_failure_is_silent_early_return_witness :
    (initSolutionState.needToInitializeGraph = true) ∧
    (((initializeSolution poseConfig false
        initSolutionState).2.countP isAlertEvent = 1) ∧
      ((initializeSolution poseConfig false
          initSolutionState).2.countP isConsoleLogEvent = 0) ∧
      (initializeSolution poseConfig false
          initSolutionState).1.needToInitializeGraph = true ∧
      (initializeSolution poseConfig false
          initSolutionState).1.pendingChanges =
        initSolutionState.pendingChanges ∧
      (initializeSolution poseConfig false
          initSolutionState).1.glContext = initSolutionState.glContext) :=
  ⟨rfl, webgl_failure_is_silent_early_return poseConfig initSolutionState rfl⟩

/-! ## Listener dispatch, frame submission, option no-ops -/

/-- C5: a listener attached for `['pose_landmarks', 'pose_rect']`, when
the engine delivers a result vector of length 2, is invoked exactly
once, with an object binding `pose_landmarks` to the extracted value of
element 0 and `pose_rect` to the extracted value of element 1. -/
theorem attachListener_pose_result_map (v0 v1 : ResultWasm) :
    listenerInvocations ["pose_landmarks", "pose_rect"] [v0, v1] =
      [[(("pose_landmarks" : String), extractWasmResult v0),
        (("pose_rect" : String), extractWasmResult v1)]] := rfl

/-- C6: `PoseSolution.send` with an absent (falsy) `video` input
resolves without initialising anything, without any WASM call, and
without changing any state. -/
theorem sendPose_falsy_video_noop (glOk : Bool) (now : Int)
    (s : SolutionState) :
    sendPose glOk none now s = (s, [], none) := rfl

/-- C7: when no supplied option key resolves to a graph parameter
reference through the static option config, `setOptions` is a silent
no-op: the state (including `pendingChanges` and
`needToInitializeGraph`) is unchanged, and no call is made. -/
theorem setOptions_unrecognized_noop (cfg : SolutionConfig)
    (options : List (String × Int)) (s : SolutionState)
    (h : ∀ kv ∈ options, optionXrefFor cfg kv.1 = none) :
    setOptions cfg options s = s := by
  unfold setOptions
  cases hc : cfg.options with
  | none => rfl
  | some configMap =>
    dsimp only
    split
    · next hlen =>
      exact absurd (by
        rw [List.length_eq_zero]
        refine List.filterMap_eq_nil_iff.mpr ?_
        intro kv hkv
        have hx := h kv hkv
        unfold optionXrefFor at hx
        rw [hc] at hx
        dsimp only at hx
        cases hl : configMap.lookup kv.1 with
        | none => simp [hl]
        | some oc =>
          rw [hl] at hx
          dsimp only at hx
          simp [hl, hx]) hlen
    · rfl

/-- Witness for C7: the pose config with a single unrecognized key. -/
theorem setOptions_unrecognized_noop_witness :
    (∀ kv ∈ [(("unknownKey" : String), (3 : Int))],
      optionXrefFor poseConfig kv.1 = none) ∧
    setOptions poseConfig [(("unknownKey" : String), (3 : Int))]
      initSolutionState = initSolutionState :=
  ⟨by decide, setOptions_unrecognized_noop poseConfig
    [(("unknownKey" : String), (3 : Int))] initSolutionState (by decide)⟩

/-! ## Loader: goog.module argument validation -/

/-- C8: for every argument that is not a nonempty string matching
`goog.VALID_MODULE_RE_`, `goog.module` throws
`Invalid module identifier` and leaves the loader state exactly as it
was. -/
theorem googModule_invalid_name_throws (v : JSVal) (st : GoogState)
    (h : validModuleArg v = false) :
    googModule v st = (st, some ("Invalid module identifier")) := by
  unfold googModule
  rw [h]
  rfl

/-- Witness for C8: a name containing a slash is rejected with the
state untouched. -/
theorem googModule_invalid_name_throws_witness :
    (validModuleArg (JSVal.str ("bad/name")) = false) ∧
    googModule (JSVal.str ("bad/name")) googInitState =
      (googInitState, some ("Invalid module identifier")) :=
  ⟨by decide, googModule_invalid_name_throws (JSVal.str ("bad/name"))
    googInitState (by decide)⟩

/-! ## processFrame metadata and close safety -/

lemma initializeSolution_glContext (cfg : SolutionConfig)
    (s : SolutionState)
    (h : s.needToInitializeGraph = true ∨ s.glContext = true) :
    (initializeSolution cfg true s).1.glContext = true := by
  have hg := tryToInitializeWasm_needToInitializeGraph cfg s
  have hgl := (tryToInitializeWasm_preserves cfg s).2
  unfold initializeSolution
  unfold tryToInitializeGraph
  cases hng : (tryToInitializeWasm cfg s).1.needToInitializeGraph with
  | false =>
    rw [hng] at hg
    rcases h with h | h
    · rw [h] at hg; exact absurd hg.symm (by simp)
    · simp [hgl, h]
  | true =>
    cases hpc : (tryToInitializeWasm cfg s).1.pendingChanges <;>
      cases hr : cfg.hasOnRegisterListeners <;>
      simp [hng, hpc, hr]

/-- C9: `Solution.processFrame` never reads its `metadata` parameter —
two calls differing only in that argument are indistinguishable (state,
events, and outcome) — and the metadata actually forwarded to
`SolutionWasm.processFrame` is recomputed as the video dimensions plus
the current `performance.now()` timestamp. -/
theorem processFrame_ignores_metadata (cfg : SolutionConfig)
    (glOk : Bool) (stream : String) (m1 m2 : FrameMetadata)
    (video : Video) (now : Int) (s : SolutionState) :
    processFrameSolution cfg glOk stream m1 video now s =
      processFrameSolution cfg glOk stream m2 video now s ∧
    (glOk = true →
      (s.needToInitializeGraph = true ∨ s.glContext = true) →
      Event.processFrameCall stream
          { width := video.videoWidth
            height := video.videoHeight
            timestampMs := now } ∈
        (processFrameSolution cfg glOk stream m1 video now s).2.1) := by
  refine ⟨rfl, ?_⟩
  intro hglOk hinit
  subst hglOk
  have hgl := initializeSolution_glContext cfg s hinit
  unfold processFrameSolution
  rw [hgl]
  simp

/-- Witness for C9: concrete frame submissions on the fresh pose
solution with two different metadata arguments. -/
theorem processFrame_ignores_metadata_witness :
    ((true : Bool) = true) ∧
    (initSolutionState.needToInitializeGraph = true ∨
      initSolutionState.glContext = true) ∧
    Event.processFrameCall ("input_frames_gpu")
        { width := 640, height := 480, timestampMs := 7 } ∈
      (processFrameSolution poseConfig true ("input_frames_gpu")
        { width := 1, height := 2, timestampMs := 3 }
        { videoWidth := 640, videoHeight := 480 } 7
        initSolutionState).2.1 :=
  ⟨rfl, Or.inl rfl,
    (processFrame_ignores_metadata poseConfig true ("input_frames_gpu")
      { width := 1, height := 2, timestampMs := 3 }
      { width := 4, height := 5, timestampMs := 6 }
      { videoWidth := 640, videoHeight := 480 } 7
      initSolutionState).2 rfl (Or.inl rfl)⟩

/-- C10: `close()` is safe before any initialisation: when the WASM
solution object was never created, `Solution.close` makes no `delete`
call and returns a resolved promise, and `PoseSolution.close` likewise
returns a resolved promise with no calls. -/
theorem close_safe_before_init (s : SolutionState)
    (h : s.solutionWasm = false) :
    closeSolution s = (s, [], none) ∧ closePose s = (s, [], none) ∧
    (closeSolution s).2.2 = none ∧ (closePose s).2.2 = none := by
  have hc : closeSolution s = (s, [], none) := by
    unfold closeSolution; rw [h]; rfl
  exact ⟨hc, by unfold closePose; rw [hc], by rw [hc], rfl⟩

/-- Witness for C10: closing a freshly constructed solution. -/
theorem close_safe_before_init_witness :
    (initSolutionState.solutionWasm = false) ∧
    (closeSolution initSolutionState = (initSolutionState, [], none) ∧
      closePose initSolutionState = (initSolutionState, [], none) ∧
      (closeSolution initSolutionState).2.2 = none ∧
      (closePose initSolutionState).2.2 = none) :=
  ⟨rfl, close_safe_before_init initSolutionState rfl⟩
